import Mathlib

/-!
Verification development for django-backblaze-b2.

Shallow embedding of the core components of the library:
  * `django_backblaze_b2/cache_account_info.py` (DjangoCacheAccountInfo),
  * `django_backblaze_b2/b2_file.py` (B2File),
  * `django_backblaze_b2/storage.py` (BackblazeB2Storage: option resolution
    and file-info caching),
  * `django_backblaze_b2/storages.py` (PublicStorage / LoggedInStorage /
    StaffStorage).

The Django cache backend is modelled as a typed key store: the three kinds
of keys used by `DjangoCacheAccountInfo` ("cached_account_info",
"bucket_names", and the sha3-hashed per-bucket keys) are disjoint, and the
sha3 hash of `bucket-name__<name>` is treated as injective in `<name>`,
so per-bucket entries are keyed directly by the bucket name.
Python `None` is modelled by `Option.none`; Python string truthiness
(`if x:`) by `x ≠ ""`.
-/

namespace DjangoB2

/-- The composite session record written by `_set_auth_data` (the value
stored under the `cached_account_info` cache key). Each field is optional:
the Python dict stores whatever values the caller passed, including `None`,
and `dict.get` on a missing record returns `None` for every field. -/
structure AccountRecord where
  account_id : Option String
  auth_token : Option String
  api_url : Option String
  download_url : Option String
  recommended_part_size : Option String
  absolute_minimum_part_size : Option String
  application_key : Option String
  realm : Option String
  s3_api_url : Option String
  allowed : Option String
  application_key_id : Option String
deriving DecidableEq

/-- The record `_cached_info` yields when the `cached_account_info` key is
absent (`self.cache.get("cached_account_info", default={})`). -/
def AccountRecord.empty : AccountRecord :=
  ⟨none, none, none, none, none, none, none, none, none, none, none⟩

/-- The Django cache backend as used by `DjangoCacheAccountInfo`:
the session record, the `bucket_names` membership list, and the
name-keyed per-bucket id entries. -/
structure Cache where
  accountInfo : Option AccountRecord
  bucketNames : Option (List String)
  bucketIds : String → Option String

/-- `cache.clear()` on the backing Django cache: every key is dropped. -/
def Cache.clearAll (_ : Cache) : Cache :=
  { accountInfo := none, bucketNames := none, bucketIds := fun _ => none }

/-- `cache.set(_bucket_cachekey(name), id)` -/
def Cache.setBucketId (c : Cache) (name id_ : String) : Cache :=
  { c with bucketIds := fun n => if n = name then some id_ else c.bucketIds n }

/-- `cache.delete(_bucket_cachekey(name))` -/
def Cache.deleteBucketId (c : Cache) (name : String) : Cache :=
  { c with bucketIds := fun n => if n = name then none else c.bucketIds n }

/-- State of the cache just after `DjangoCacheAccountInfo.__init__`
succeeds: `self.cache.set("bucket_names", [])` on a fresh cache. -/
def Cache.init : Cache :=
  { accountInfo := none, bucketNames := some [], bucketIds := fun _ => none }

/-- `DjangoCacheAccountInfo.clear`: `self.cache.clear()` followed by
`self.cache.set("bucket_names", [])`. -/
def clear (c : Cache) : Cache :=
  { Cache.clearAll c with bucketNames := some ([] : List String) }

/-- `DjangoCacheAccountInfo._set_auth_data`: stores the whole composite
record under the `cached_account_info` key. -/
def set_auth_data (c : Cache) (r : AccountRecord) : Cache :=
  { c with accountInfo := some r }

/-- `DjangoCacheAccountInfo._cached_info`:
`self.cache.get("cached_account_info", default={})`. -/
def cached_info (c : Cache) : AccountRecord :=
  c.accountInfo.getD AccountRecord.empty

/-- The ten session fields whose getters are wrapped by
`_handle_result_is_none` (`get_s3_api_url` is deliberately not wrapped
in the source and is modelled separately). -/
inductive SessionField
  | account_id
  | auth_token
  | api_url
  | download_url
  | recommended_part_size
  | absolute_minimum_part_size
  | application_key
  | realm
  | allowed
  | application_key_id
deriving DecidableEq

/-- Projection of the stored record used by each wrapped getter body
(`self._cached_info().get(<field>)`). -/
def AccountRecord.field (r : AccountRecord) : SessionField → Option String
  | .account_id => r.account_id
  | .auth_token => r.auth_token
  | .api_url => r.api_url
  | .download_url => r.download_url
  | .recommended_part_size => r.recommended_part_size
  | .absolute_minimum_part_size => r.absolute_minimum_part_size
  | .application_key => r.application_key
  | .realm => r.realm
  | .allowed => r.allowed
  | .application_key_id => r.application_key_id

/-- The item name interpolated into the `MissingAccountData` message:
`item_name or function.__name__[len("get_"):]`; only the auth-token getter
passes an explicit `item_name` ("auth_token"). -/
def SessionField.itemName : SessionField → String
  | .account_id => "account_id"
  | .auth_token => "auth_token"
  | .api_url => "api_url"
  | .download_url => "download_url"
  | .recommended_part_size => "recommended_part_size"
  | .absolute_minimum_part_size => "absolute_minimum_part_size"
  | .application_key => "application_key"
  | .realm => "realm"
  | .allowed => "allowed"
  | .application_key_id => "application_key_id"

/-- The `MissingAccountData` error raised by `_handle_result_is_none`
(message modelled without the surrounding quote characters). -/
structure MissingAccountData where
  message : String
deriving DecidableEq

/-- The error a wrapped getter for field `f` raises. -/
def missingData (f : SessionField) : MissingAccountData :=
  ⟨"Token refresh required to determine value of " ++ f.itemName⟩

/-- A `_handle_result_is_none`-wrapped getter: returns the stored field
value, or — when it is `None` — clears the whole backing cache
(`self.cache.clear()`, note: not `self.clear()`, so `bucket_names` is not
re-seeded) and raises `MissingAccountData`. Returns the result together
with the post-call cache state. -/
def getSessionField (c : Cache) (f : SessionField) :
    Except MissingAccountData String × Cache :=
  match (cached_info c).field f with
  | some v => (Except.ok v, c)
  | none => (Except.error (missingData f), Cache.clearAll c)

/-- `DjangoCacheAccountInfo.get_s3_api_url`:
`self._cached_info().get("s3_api_url") or ""` (unwrapped, never raises). -/
def get_s3_api_url (c : Cache) : String :=
  match (cached_info c).s3_api_url with
  | some v => if v = "" then "" else v
  | none => ""

/-- Runs a sequence of wrapped getters left to right, threading the cache
state (a failing getter mutates the cache by clearing it). -/
def runGetters (c : Cache) :
    List SessionField → List (Except MissingAccountData String) × Cache
  | [] => ([], c)
  | f :: fs =>
    let rc := getSessionField c f
    let rest := runGetters rc.2 fs
    (rc.1 :: rest.1, rest.2)

/-- `DjangoCacheAccountInfo.get_bucket_id_or_none_from_bucket_name`. -/
def get_bucket_id_or_none_from_bucket_name (c : Cache) (bucket_name : String) :
    Option String :=
  c.bucketIds bucket_name

/-- Helper for the reverse lookup loop: first name in the list whose
stored bucket id is truthy. This mirrors the source faithfully: the loop
in `get_bucket_name_or_none_from_bucket_id` overwrites its `bucket_id`
argument with `self.cache.get(_bucket_cachekey(bucket_name))` and returns
the first name whose stored id is truthy, never comparing against the
requested id. -/
def firstNameWithTruthyId (c : Cache) : List String → Option String
  | [] => none
  | n :: rest =>
    match c.bucketIds n with
    | some i => if i = "" then firstNameWithTruthyId c rest else some n
    | none => firstNameWithTruthyId c rest

/-- `DjangoCacheAccountInfo.get_bucket_name_or_none_from_bucket_id`. -/
def get_bucket_name_or_none_from_bucket_id (c : Cache) (_bucket_id : String) :
    Option String :=
  firstNameWithTruthyId c (c.bucketNames.getD [])

/-- `DjangoCacheAccountInfo.remove_bucket_name`. -/
def remove_bucket_name (c : Cache) (bucket_name : String) : Cache :=
  let c1 := { c with
    bucketNames := some ((c.bucketNames.getD []).filter (fun n => n ≠ bucket_name)) }
  Cache.deleteBucketId c1 bucket_name

/-- `DjangoCacheAccountInfo.save_bucket`. -/
def save_bucket (c : Cache) (name id_ : String) : Cache :=
  let c1 := Cache.setBucketId c name id_
  { c1 with bucketNames := some ((c1.bucketNames.getD []) ++ [name]) }

/-- The first pass of `refresh_entire_bucket_name_cache`: set the forward
entry for every supplied pair, in order. -/
def setAllBucketIds (c : Cache) (pairs : List (String × String)) : Cache :=
  pairs.foldl (fun acc p => Cache.setBucketId acc p.1 p.2) c

/-- The `bucket_names_to_remove` set of `refresh_entire_bucket_name_cache`:
previously listed names absent from the new pairs (a Python set, modelled
as the deduplicated filtered list). -/
def staleNames (c : Cache) (pairs : List (String × String)) : List String :=
  ((c.bucketNames.getD []).filter (fun n => n ∉ pairs.map Prod.fst)).dedup

/-- `DjangoCacheAccountInfo.refresh_entire_bucket_name_cache`: computes
the stale-name set, upserts every supplied forward entry, then removes
each stale name. -/
def refresh_entire_bucket_name_cache (c : Cache)
    (pairs : List (String × String)) : Cache :=
  (staleNames c pairs).foldl remove_bucket_name (setAllBucketIds c pairs)

/-! ## B2File (`b2_file.py`)

A lazy file handle. Bytes are `Nat`s; an in-memory `BytesIO` buffer is a
byte list plus a read position. Network activity is recorded in a log:
the number of `bucket.download_file_by_name` calls and the list of
payloads passed to `bucket.upload_bytes`, in order. The remote object's
content (what a download returns) is the `remote` parameter. -/

/-- An open `io.BytesIO` buffer: contents plus current position. -/
structure ByteBuf where
  data : List Nat
  pos : Nat
deriving DecidableEq

/-- `buf.read()` with no argument: everything from the position on,
advancing the position to the end. -/
def ByteBuf.readAll (b : ByteBuf) : List Nat × ByteBuf :=
  (b.data.drop b.pos, { b with pos := b.data.length })

/-- Network calls performed by a `B2File`. -/
structure NetLog where
  downloads : Nat
  uploads : List (List Nat)
deriving DecidableEq

/-- The log before any network activity. -/
def NetLog.empty : NetLog := ⟨0, []⟩

/-- `B2File` state: `self.name`, `self._mode`, `self._hasUnwrittenData`
and `self._contents` (absent until first touch). -/
structure B2File where
  name : String
  mode : String
  hasUnwrittenData : Bool
  contents : Option ByteBuf
deriving DecidableEq

/-- `B2File.__init__`: no buffer, not dirty, no network call. -/
def B2File.openFile (name mode : String) : B2File :=
  { name := name, mode := mode, hasUnwrittenData := false, contents := none }

/-- The `B2File.file` property getter: materializes `self._contents` via
`_readFileContents` (exactly one download of the full object) when it is
absent. -/
def B2File.fileGet (remote : List Nat) (f : B2File) (log : NetLog) :
    ByteBuf × B2File × NetLog :=
  match f.contents with
  | some b => (b, f, log)
  | none =>
    let b : ByteBuf := { data := remote, pos := 0 }
    (b, { f with contents := some b },
      { log with downloads := log.downloads + 1 })

/-- `B2File.write`: raises `AttributeError` unless the mode contains the
character "w" (Python `if "w" not in self._mode`); otherwise replaces the
buffer wholesale with the payload (position 0) and marks the handle
dirty. No network call. -/
def B2File.write (f : B2File) (content : List Nat) : Except String B2File :=
  if 'w' ∈ f.mode.data then
    Except.ok { f with contents := some { data := content, pos := 0 },
                       hasUnwrittenData := true }
  else
    Except.error "File was not opened for write access."

/-- `B2File.read`: `self.file.read(num_bytes if isinstance(num_bytes, int)
else -1)` — materializes the buffer (downloading if untouched), then
consumes it; a missing or negative count reads everything remaining. -/
def B2File.read (remote : List Nat) (f : B2File) (log : NetLog)
    (numBytes : Option Int) : List Nat × B2File × NetLog :=
  let bfl := B2File.fileGet remote f log
  let b := bfl.1
  match numBytes with
  | some k =>
    if k < 0 then
      let rb := b.readAll
      (rb.1, { bfl.2.1 with contents := some rb.2 }, bfl.2.2)
    else
      let taken := (b.data.drop b.pos).take k.toNat
      (taken, { bfl.2.1 with contents := some { b with pos := b.pos + taken.length } },
        bfl.2.2)
  | none =>
    let rb := b.readAll
    (rb.1, { bfl.2.1 with contents := some rb.2 }, bfl.2.2)

/-- `B2File.close`: when dirty, `saveAndRetrieveFile(self.file)` uploads
`self.file.read()` (the buffer from its current position) and clears the
dirty flag; then `self.file.close()` — which, via the `file` property,
downloads the object first when the buffer was never materialized. -/
def B2File.close (remote : List Nat) (f : B2File) (log : NetLog) :
    B2File × NetLog :=
  if f.hasUnwrittenData then
    let bfl := B2File.fileGet remote f log
    let rb := bfl.1.readAll
    let log2 := { bfl.2.2 with uploads := bfl.2.2.uploads ++ [rb.1] }
    ({ bfl.2.1 with hasUnwrittenData := false, contents := some rb.2 }, log2)
  else
    let bfl := B2File.fileGet remote f log
    (bfl.2.1, bfl.2.2)

/-- Runs a sequence of `write` calls left to right, failing if any write
fails. -/
def B2File.runWrites (f : B2File) : List (List Nat) → Except String B2File
  | [] => Except.ok f
  | p :: ps =>
    match f.write p with
    | Except.ok f1 => B2File.runWrites f1 ps
    | Except.error e => Except.error e

/-! ## PublicStorage bucket-visibility probe (`storages.py`)

`PublicStorage._is_public_bucket` and `PublicStorage._get_file_url`,
without a CDN configuration. A visibility read (`self.bucket.as_dict()`
followed by `.get("bucketType")`) is modelled by consuming the next entry
of an oracle list; `none` is an indeterminate answer (a dict without the
`bucketType` key). `_refresh_bucket` is counted but — as in
`storage.py`, where `_refreshBucket` returns the fresh state without
storing it — does not change what the next read observes beyond consuming
the oracle. -/

/-- Counters for the probe: `as_dict` visibility reads and
`_refresh_bucket` calls. -/
structure ProbeLog where
  reads : Nat
  refreshes : Nat
deriving DecidableEq

/-- `PublicStorage` probe state: the memoized `self._bucket_type`. -/
structure PubState where
  bucketType : Option String
deriving DecidableEq

/-- `PublicStorage._is_public_bucket`: if `_bucket_type` is unset, read
once; on an indeterminate answer, refresh the bucket and read exactly one
more time; memoize whatever the final read said (possibly still
indeterminate) and compare against "allPublic". -/
def isPublicBucket (s : PubState) (oracle : List (Option String))
    (log : ProbeLog) : Bool × PubState × List (Option String) × ProbeLog :=
  match s.bucketType with
  | some bt => (bt = "allPublic", s, oracle, log)
  | none =>
    let r1 := oracle.headD none
    let o1 := oracle.tail
    let l1 := { log with reads := log.reads + 1 }
    match r1 with
    | some bt => (bt = "allPublic", { bucketType := some bt }, o1, l1)
    | none =>
      let l2 := { l1 with refreshes := l1.refreshes + 1 }
      let r2 := o1.headD none
      let o2 := o1.tail
      let l3 := { l2 with reads := l2.reads + 1 }
      ((r2 = some "allPublic" : Bool), { bucketType := r2 }, o2, l3)

/-- The direct download URL the remote store computes for a file
(`b2Api.get_download_url_for_file_name`), as mocked in the repository's
own tests. -/
def backblazeUrl (bucketName fileName : String) : String :=
  "https://f000.backblazeb2.com/file/" ++ bucketName ++ "/" ++ fileName

/-- The gated internal path `reverse("django_b2_storage:b2-public",
args=[name])` resolves to (per `urls.py`: `path("b2/<path:filename>",...)`). -/
def internalPublicPath (name : String) : String :=
  "/b2/" ++ name

/-- `PublicStorage._get_file_url` with no CDN configured, threading probe
state, oracle and counters. -/
def publicGetFileUrl (s : PubState) (oracle : List (Option String))
    (log : ProbeLog) (bucketName name : String) :
    String × PubState × List (Option String) × ProbeLog :=
  let r := isPublicBucket s oracle log
  if r.1 then (backblazeUrl bucketName name, r.2)
  else (internalPublicPath name, r.2)

/-! ## Scoped-facade option validation (`storages.py` / `storage.py`)

Configuration resolution at the granularity the scoped facades validate:
options are assoc lists of string keys and values. The scoped facades
(`PublicStorage`, `LoggedInStorage`, `StaffStorage`) each override the
settings-options hook invoked by `BackblazeB2Storage.__init__`, first
calling `_validate_kwarg_opts` on the caller's explicit options. -/

/-- The three access-scoped facades. -/
inductive Tier
  | publicTier
  | loggedInTier
  | staffTier
deriving DecidableEq

/-- The `specific_bucket_names` alias key each facade selects in
`_adjust_options`. -/
def Tier.aliasKey : Tier → String
  | .publicTier => "public"
  | .loggedInTier => "logged_in"
  | .staffTier => "staff"

/-- String-valued option dictionaries. -/
def Opts := List (String × String)

/-- Python `key in dict`. -/
def Opts.hasKey (o : Opts) (k : String) : Bool :=
  o.any (fun p => p.1 = k)

/-- Python `dict.get(key)`. -/
def Opts.get (o : Opts) (k : String) : Option String :=
  (o.find? (fun p => p.1 = k)).map Prod.snd

/-- `dict[key] = value` (replacing any existing binding). -/
def Opts.set (o : Opts) (k v : String) : Opts :=
  (o.filter (fun p => p.1 ≠ k)) ++ [(k, v)]

/-- `_validate_kwarg_opts`: a raw bucket name or raw credentials in a
scoped facade's explicit options is a hard configuration error. -/
def validate_kwarg_opts (kwargOpts : Opts) : Except String Unit :=
  if kwargOpts.hasKey "bucket" then
    Except.error "May not specify bucket in proxied storage class"
  else if kwargOpts.hasKey "application_key_id"
      || kwargOpts.hasKey "application_key"
      || kwargOpts.hasKey "realm" then
    Except.error "May not specify auth credentials in proxied storage class"
  else
    Except.ok ()

/-- The recognized top-level option keys (`getDefaultB2StorageOptions`).
`specific_bucket_names` aliases are modelled as dotted keys. -/
def recognizedKeys : List String :=
  ["realm", "application_key_id", "application_key", "bucket",
   "authorize_on_init", "validate_on_init", "allow_file_overwrites",
   "account_info", "forbid_file_property_caching",
   "specific_bucket_names.public", "specific_bucket_names.logged_in",
   "specific_bucket_names.staff", "cdn_config",
   "non_existent_bucket_details", "default_file_info"]

/-- `_validateOptions`: unrecognized keys are a hard configuration
error. -/
def validateOptions (o : Opts) : Except String Unit :=
  if o.all (fun p => recognizedKeys.contains p.1) then Except.ok ()
  else Except.error "Unrecognized options"

/-- Library defaults (`getDefaultB2StorageOptions`), restricted to the
string-modelled keys that matter here. -/
def defaultOpts : Opts :=
  [("realm", "production"),
   ("application_key_id", "you must set this value yourself"),
   ("application_key", "you must set this value yourself"),
   ("bucket", "django")]

/-- Apply every binding of `src` over `dst` (`dict.update` /
`_merge` at string granularity). -/
def Opts.updateWith (dst src : Opts) : Opts :=
  src.foldl (fun acc p => Opts.set acc p.1 p.2) dst

/-- `BackblazeB2Storage._get_django_settings_options`: the settings block
must exist and carry both credential keys; its keys must be recognized;
the result is the defaults updated with the settings. -/
def baseGetDjangoSettingsOptions (settings : Option Opts) :
    Except String Opts := do
  match settings with
  | none => Except.error "add BACKBLAZE_CONFIG dict to django settings"
  | some cfg =>
    if cfg.hasKey "application_key_id" && cfg.hasKey "application_key" then
      do
        _ ← validateOptions cfg
        pure (Opts.updateWith defaultOpts cfg)
    else
      Except.error
        "At minimum BACKBLAZE_CONFIG must contain auth application_key and application_key_id"

/-- `_adjust_options`: when the resolved options carry a bucket alias for
this facade's tier, it overrides the bucket name. -/
def adjustOptions (o : Opts) (tier : Tier) : Opts :=
  match o.get ("specific_bucket_names." ++ tier.aliasKey) with
  | some b => if b = "" then o else o.set "bucket" b
  | none => o

/-- The scoped facades's settings-options hook
(`_get_django_settings_options` in each of the three subclasses):
validate the caller's explicit options, resolve the base options, then
apply the tier's bucket alias. -/
def scopedGetDjangoSettingsOptions (tier : Tier) (kwargOpts : Opts)
    (settings : Option Opts) : Except String Opts := do
  _ ← validate_kwarg_opts kwargOpts
  let o ← baseGetDjangoSettingsOptions settings
  pure (adjustOptions o tier)

/-- Configuration resolution performed when constructing a scoped facade
(`BackblazeB2Storage.__init__` up to the merge of explicit options, with
the scoped settings-options hook): yields the effective options. -/
def scopedStorageResolveConfig (tier : Tier) (kwargOpts : Opts)
    (settings : Option Opts) : Except String Opts := do
  let o ← scopedGetDjangoSettingsOptions tier kwargOpts settings
  _ ← validateOptions kwargOpts
  pure (Opts.updateWith o kwargOpts)

/-! ## File-info caching (`storage.py`)

`BackblazeB2Storage._fileInfo` / `exists` with the Django cache usable
(`self._cache` truthy). The cache key is `sha3(bucket__name)`, treated as
injective, so entries are keyed by the object name; the remote store is a
fixed map from names to file info; every `bucket.get_file_info_by_name`
call is counted. Entries are only consulted within their TTL window, so
expiry is not modelled. -/

/-- The slice of a b2 file-version dict the storage layer consults. -/
structure FileInfoD where
  fileId : String
  size : Nat
deriving DecidableEq

/-- File-info cache entries (keyed by object name) plus the count of
remote `get_file_info_by_name` fetches performed so far. -/
structure FileInfoCache where
  entries : String → Option FileInfoD
  fetches : Nat

/-- The empty file-info cache. -/
def FileInfoCache.empty : FileInfoCache :=
  { entries := fun _ => none, fetches := 0 }

/-- `BackblazeB2Storage._fileInfo` with caching enabled:
`cache.get_or_set(key, default=loadInfo, timeout=60)` — a hit returns the
entry; a miss calls `loadInfo` (one remote fetch); a found result is
stored; `FileOrBucketNotFound` raised by `loadInfo` propagates out of
`get_or_set` (nothing is stored) and is translated to `None`. -/
def fileInfoCached (remote : String → Option FileInfoD)
    (st : FileInfoCache) (name : String) :
    Option FileInfoD × FileInfoCache :=
  match st.entries name with
  | some v => (some v, st)
  | none =>
    let st1 := { st with fetches := st.fetches + 1 }
    match remote name with
    | some info =>
      (some info,
        { st1 with entries := fun n => if n = name then some info else st1.entries n })
    | none => (none, st1)

/-- `BackblazeB2Storage.exists` (caching enabled): truthiness of the
file-info dict. -/
def existsCached (remote : String → Option FileInfoD)
    (st : FileInfoCache) (name : String) : Bool × FileInfoCache :=
  let r := fileInfoCached remote st name
  (r.1.isSome, r.2)

/-! ## Theorems about the account-info store -/

/-- Every field of the record yielded for an absent session is `none`. -/
lemma empty_field (f : SessionField) : AccountRecord.empty.field f = none := by
  cases f <;> rfl

/-- A wrapped getter on a cache with no stored session record fails and
clears the backing cache. -/
lemma getSessionField_of_no_record (c : Cache) (f : SessionField)
    (h : c.accountInfo = none) :
    getSessionField c f = (Except.error (missingData f), Cache.clearAll c) := by
  have hf : (cached_info c).field f = none := by
    simp [cached_info, h, empty_field]
  simp [getSessionField, hf]

/-- A wrapped getter whose field is stored returns it and leaves the
cache untouched. -/
lemma getSessionField_of_some (c : Cache) (r : AccountRecord)
    (f : SessionField) (v : String) (h : r.field f = some v) :
    getSessionField (set_auth_data c r) f = (Except.ok v, set_auth_data c r) := by
  simp [getSessionField, cached_info, set_auth_data, h]

/-- On a cache with no stored session record, every sequence of wrapped
getters produces only `MissingAccountData` failures. -/
lemma runGetters_all_error (fs : List SessionField) :
    ∀ c : Cache, c.accountInfo = none →
      (runGetters c fs).1 = fs.map (fun f => Except.error (missingData f)) := by
  induction fs with
  | nil => intro c _; rfl
  | cons f fs ih =>
    intro c h
    simp only [runGetters, getSessionField_of_no_record c f h, List.map_cons]
    exact congrArg _ (ih (Cache.clearAll c) rfl)

/-- After `set_auth_data` with a complete record, every sequence of
wrapped getters returns exactly the stored values and never mutates the
cache. -/
lemma runGetters_all_ok (c : Cache) (r : AccountRecord)
    (hr : ∀ f, (r.field f).isSome = true) (fs : List SessionField) :
    runGetters (set_auth_data c r) fs =
      (fs.map (fun f => Except.ok ((r.field f).getD "")), set_auth_data c r) := by
  induction fs with
  | nil => rfl
  | cons f fs ih =>
    obtain ⟨v, hv⟩ := Option.isSome_iff_exists.mp (hr f)
    simp only [runGetters, getSessionField_of_some c r f v hv, ih, List.map_cons]
    simp [hv]

/-- C1: after one `setAuthData` with a value for every session field,
every sequence of wrapped getters returns exactly the last-set value for
its field; if `clear()` is called after the `setAuthData`, every wrapped
getter in the sequence instead fails with `MissingAccountData`. -/
theorem c1_set_then_get_all_or_nothing (c : Cache) (r : AccountRecord)
    (fs : List SessionField) (hr : ∀ f, (r.field f).isSome = true) :
    (runGetters (set_auth_data c r) fs).1 =
        fs.map (fun f => Except.ok ((r.field f).getD "")) ∧
    (runGetters (clear (set_auth_data c r)) fs).1 =
        fs.map (fun f => Except.error (missingData f)) := by
  constructor
  · rw [runGetters_all_ok c r hr fs]
  · exact runGetters_all_error fs _ rfl

/-- A concrete complete session record. -/
def recordAll : AccountRecord :=
  { account_id := some "acct"
    auth_token := some "tok"
    api_url := some "api"
    download_url := some "dl"
    recommended_part_size := some "100"
    absolute_minimum_part_size := some "5"
    application_key := some "key"
    realm := some "production"
    s3_api_url := some "s3"
    allowed := some "caps"
    application_key_id := some "keyid" }

/-- C1 witness: the all-or-nothing property evaluated on a concrete
record and getter sequence. -/
theorem c1_set_then_get_all_or_nothing_witness :
    (runGetters (set_auth_data Cache.init recordAll)
        [SessionField.account_id, SessionField.auth_token]).1 =
      [Except.ok "acct", Except.ok "tok"] ∧
    (runGetters (clear (set_auth_data Cache.init recordAll))
        [SessionField.account_id, SessionField.auth_token]).1 =
      [Except.error (missingData SessionField.account_id),
       Except.error (missingData SessionField.auth_token)] := by
  have h := c1_set_then_get_all_or_nothing Cache.init recordAll
    [SessionField.account_id, SessionField.auth_token]
    (fun f => by cases f <;> rfl)
  simpa [recordAll] using h

/-- A concrete session record whose `auth_token` field alone is absent. -/
def recordPartial : AccountRecord :=
  { recordAll with auth_token := none }

/-- C8 counterexample: a persisted session record with an absent field
(`auth_token`) on which the `account_id` getter nevertheless returns its
stored value — the completeness check is per-field, not over the
composite record, so not every getter fails. -/
theorem c8_counterexample :
    (cached_info (set_auth_data Cache.init recordPartial)).auth_token = none ∧
    (getSessionField (set_auth_data Cache.init recordPartial)
        SessionField.account_id).1 = Except.ok "acct" := by
  exact ⟨rfl, rfl⟩

/-- C8 (amended): each wrapped getter checks only its own field — it
fails with the missing-account-data error naming that field exactly when
that field is absent, and returns the stored value when it is present,
regardless of the other fields. -/
theorem c8_getter_checks_own_field (c : Cache) (f : SessionField) :
    ((cached_info c).field f = none →
      (getSessionField c f).1 = Except.error (missingData f)) ∧
    (∀ v, (cached_info c).field f = some v →
      (getSessionField c f).1 = Except.ok v) := by
  constructor
  · intro h
    simp [getSessionField, h]
  · intro v h
    simp [getSessionField, h]

/-- C8 witness: the amended per-field behaviour evaluated on the
partially-absent concrete record. -/
theorem c8_getter_checks_own_field_witness :
    (getSessionField (set_auth_data Cache.init recordPartial)
        SessionField.auth_token).1 =
      Except.error (missingData SessionField.auth_token) ∧
    (getSessionField (set_auth_data Cache.init recordPartial)
        SessionField.account_id).1 = Except.ok "acct" := by
  exact ⟨(c8_getter_checks_own_field (set_auth_data Cache.init recordPartial)
      SessionField.auth_token).1 rfl,
    (c8_getter_checks_own_field (set_auth_data Cache.init recordPartial)
      SessionField.account_id).2 "acct" rfl⟩

/-- C10: a failing wrapped getter clears the entire backing cache
(session record, bucket membership list and every per-bucket entry)
before raising; afterwards every wrapped getter fails and both bucket
lookups return the not-found sentinel. -/
theorem c10_failing_getter_wipes_everything (c : Cache) (f : SessionField)
    (e : MissingAccountData) (h : (getSessionField c f).1 = Except.error e) :
    (getSessionField c f).2.accountInfo = none ∧
    (getSessionField c f).2.bucketNames = none ∧
    (∀ n, (getSessionField c f).2.bucketIds n = none) ∧
    (∀ f2, (getSessionField (getSessionField c f).2 f2).1 =
      Except.error (missingData f2)) ∧
    (∀ n, get_bucket_id_or_none_from_bucket_name (getSessionField c f).2 n
      = none) ∧
    (∀ i, get_bucket_name_or_none_from_bucket_id (getSessionField c f).2 i
      = none) := by
  have hpost : (getSessionField c f).2 = Cache.clearAll c := by
    rcases hv : (cached_info c).field f with _ | v
    · simp [getSessionField, hv]
    · simp [getSessionField, hv] at h
  refine ⟨?_, ?_, ?_, ?_, ?_, ?_⟩
  · rw [hpost]; rfl
  · rw [hpost]; rfl
  · intro n; rw [hpost]; rfl
  · intro f2
    rw [hpost, getSessionField_of_no_record (Cache.clearAll c) f2 rfl]
  · intro n; rw [hpost]; rfl
  · intro i; rw [hpost]; rfl

/-- C10 witness: an empty store, whose `realm` getter fails, evaluated
on concrete lookups. -/
theorem c10_failing_getter_wipes_everything_witness :
    (getSessionField Cache.init SessionField.realm).2.accountInfo = none ∧
    (getSessionField (getSessionField Cache.init SessionField.realm).2
        SessionField.api_url).1 =
      Except.error (missingData SessionField.api_url) ∧
    get_bucket_id_or_none_from_bucket_name
        (getSessionField Cache.init SessionField.realm).2 "some-name" = none := by
  have h := c10_failing_getter_wipes_everything Cache.init SessionField.realm
    (missingData SessionField.realm) rfl
  exact ⟨h.1, h.2.2.2.1 SessionField.api_url, h.2.2.2.2.1 "some-name"⟩

/-- A concrete index holding two buckets: "alpha" with id "1" saved
first, then "beta" with id "2". -/
def twoBucketIndex : Cache :=
  save_bucket (save_bucket Cache.init "alpha" "1") "beta" "2"

/-- C4: evaluation at the failing input. With "alpha"→"1" and "beta"→"2"
both indexed, the reverse lookup for id "2" answers "alpha" (the loop in
the source shadows its `bucket_id` argument and returns the first name
with a truthy stored id), so the round trip yields "1", not "2"; and
after `remove_bucket_name "beta"`, the forward lookup is the not-found
sentinel but the reverse lookup for the former id "2" still answers
"alpha". -/
theorem c4_roundtrip_fails_on_second_bucket :
    get_bucket_name_or_none_from_bucket_id twoBucketIndex "2" = some "alpha" ∧
    get_bucket_id_or_none_from_bucket_name twoBucketIndex "alpha" = some "1" ∧
    get_bucket_id_or_none_from_bucket_name
      (remove_bucket_name twoBucketIndex "beta") "beta" = none ∧
    get_bucket_name_or_none_from_bucket_id
      (remove_bucket_name twoBucketIndex "beta") "2" = some "alpha" := by
  refine ⟨?_, ?_, ?_, ?_⟩ <;> decide

/-! ## C9: idempotence of the bucket-index refresh -/

/-- The id the first pass of a refresh leaves under a given name: the
second component of the last supplied pair carrying that name. -/
def lastIdOf : List (String × String) → String → Option String
  | [], _ => none
  | p :: ps, n =>
    match lastIdOf ps n with
    | some i => some i
    | none => if p.1 = n then some p.2 else none

lemma setAllBucketIds_bucketNames (pairs : List (String × String)) :
    ∀ c : Cache, (setAllBucketIds c pairs).bucketNames = c.bucketNames := by
  induction pairs with
  | nil => intro c; rfl
  | cons p ps ih =>
    intro c
    simpa [setAllBucketIds, List.foldl] using ih (Cache.setBucketId c p.1 p.2)

lemma setAllBucketIds_accountInfo (pairs : List (String × String)) :
    ∀ c : Cache, (setAllBucketIds c pairs).accountInfo = c.accountInfo := by
  induction pairs with
  | nil => intro c; rfl
  | cons p ps ih =>
    intro c
    simpa [setAllBucketIds, List.foldl] using ih (Cache.setBucketId c p.1 p.2)

lemma setAllBucketIds_bucketIds (pairs : List (String × String)) :
    ∀ (c : Cache) (n : String),
      (setAllBucketIds c pairs).bucketIds n =
        match lastIdOf pairs n with
        | some i => some i
        | none => c.bucketIds n := by
  induction pairs with
  | nil => intro c n; rfl
  | cons p ps ih =>
    intro c n
    have step : setAllBucketIds c (p :: ps) =
        setAllBucketIds (Cache.setBucketId c p.1 p.2) ps := rfl
    rw [step, ih (Cache.setBucketId c p.1 p.2) n]
    rcases hl : lastIdOf ps n with _ | i
    · simp only [lastIdOf, hl, Cache.setBucketId]
      by_cases h : p.1 = n
      · simp [h]
      · have h2 : ¬ n = p.1 := fun hn => h hn.symm
        simp [h, h2]
    · simp [lastIdOf, hl]

lemma foldl_remove_accountInfo (L : List String) :
    ∀ c : Cache,
      (L.foldl remove_bucket_name c).accountInfo = c.accountInfo := by
  induction L with
  | nil => intro c; rfl
  | cons a L ih =>
    intro c
    simpa [List.foldl] using ih (remove_bucket_name c a)

lemma remove_bucket_name_bucketIds (c : Cache) (m n : String) :
    (remove_bucket_name c m).bucketIds n = if n = m then none else c.bucketIds n := rfl

lemma foldl_remove_bucketIds (L : List String) :
    ∀ (c : Cache) (n : String),
      (L.foldl remove_bucket_name c).bucketIds n =
        if n ∈ L then none else c.bucketIds n := by
  induction L with
  | nil => intro c n; simp
  | cons a L ih =>
    intro c n
    have step : (a :: L).foldl remove_bucket_name c =
        L.foldl remove_bucket_name (remove_bucket_name c a) := rfl
    rw [step, ih (remove_bucket_name c a) n, remove_bucket_name_bucketIds]
    by_cases h1 : n ∈ L
    · simp [h1]
    · by_cases h2 : n = a <;> simp [h1, h2]

lemma remove_bucket_name_bucketNames (c : Cache) (m : String) :
    (remove_bucket_name c m).bucketNames =
      some ((c.bucketNames.getD []).filter (fun n => n ≠ m)) := rfl

lemma foldl_remove_bucketNames_getD (L : List String) :
    ∀ c : Cache,
      ((L.foldl remove_bucket_name c).bucketNames).getD [] =
        (c.bucketNames.getD []).filter (fun n => n ∉ L) := by
  induction L with
  | nil => intro c; simp
  | cons a L ih =>
    intro c
    have step : (a :: L).foldl remove_bucket_name c =
        L.foldl remove_bucket_name (remove_bucket_name c a) := rfl
    rw [step, ih (remove_bucket_name c a), remove_bucket_name_bucketNames]
    simp only [Option.getD_some, List.filter_filter]
    apply List.filter_congr
    intro x _
    by_cases hxa : x = a <;> by_cases hxL : x ∈ L <;>
      simp [hxa, hxL]

lemma lastIdOf_isSome_mem (pairs : List (String × String)) :
    ∀ n i, lastIdOf pairs n = some i → n ∈ pairs.map Prod.fst := by
  induction pairs with
  | nil => intro n i h; simp [lastIdOf] at h
  | cons p ps ih =>
    intro n i h
    rcases hl : lastIdOf ps n with _ | j
    · simp only [lastIdOf, hl] at h
      by_cases hp : p.1 = n
      · simp [hp.symm]
      · simp [hp] at h
    · exact List.mem_cons_of_mem _ (ih n j hl)

lemma mem_staleNames (c : Cache) (pairs : List (String × String))
    (n : String) (h : n ∈ staleNames c pairs) :
    n ∈ c.bucketNames.getD [] ∧ n ∉ pairs.map Prod.fst := by
  have h1 := List.mem_dedup.mp h
  have h2 := List.mem_filter.mp h1
  exact ⟨h2.1, by simpa using h2.2⟩

lemma staleNames_of_mem (c : Cache) (pairs : List (String × String))
    (n : String) (h1 : n ∈ c.bucketNames.getD [])
    (h2 : n ∉ pairs.map Prod.fst) : n ∈ staleNames c pairs := by
  exact List.mem_dedup.mpr (List.mem_filter.mpr ⟨h1, by simpa using h2⟩)

lemma staleNames_refresh (c : Cache) (pairs : List (String × String)) :
    staleNames (refresh_entire_bucket_name_cache c pairs) pairs = [] := by
  unfold staleNames
  rw [show (refresh_entire_bucket_name_cache c pairs).bucketNames =
      ((staleNames c pairs).foldl remove_bucket_name
        (setAllBucketIds c pairs)).bucketNames from rfl]
  rw [foldl_remove_bucketNames_getD, setAllBucketIds_bucketNames]
  have hnil : ((c.bucketNames.getD []).filter
        (fun n => n ∉ staleNames c pairs)).filter
        (fun n => n ∉ pairs.map Prod.fst) = [] := by
    rw [List.filter_eq_nil_iff]
    intro x hx
    have hx1 := List.mem_filter.mp hx
    have hxb : x ∈ c.bucketNames.getD [] := hx1.1
    have hxs : x ∉ staleNames c pairs := by simpa using hx1.2
    intro hcon
    have hxnew : x ∉ pairs.map Prod.fst := by simpa using hcon
    exact hxs (staleNames_of_mem c pairs x hxb hxnew)
  rw [hnil, List.dedup_nil]

/-- C9: `refresh_entire_bucket_name_cache` is idempotent — applying the
same authoritative name/id pairs twice leaves the membership list, every
forward bucket entry and the session record exactly as one application
does. -/
theorem c9_refresh_idempotent (c : Cache) (pairs : List (String × String)) :
    (refresh_entire_bucket_name_cache
        (refresh_entire_bucket_name_cache c pairs) pairs).bucketNames =
      (refresh_entire_bucket_name_cache c pairs).bucketNames ∧
    (∀ n, (refresh_entire_bucket_name_cache
        (refresh_entire_bucket_name_cache c pairs) pairs).bucketIds n =
      (refresh_entire_bucket_name_cache c pairs).bucketIds n) ∧
    (refresh_entire_bucket_name_cache
        (refresh_entire_bucket_name_cache c pairs) pairs).accountInfo =
      (refresh_entire_bucket_name_cache c pairs).accountInfo := by
  have hsecond : refresh_entire_bucket_name_cache
      (refresh_entire_bucket_name_cache c pairs) pairs =
      setAllBucketIds (refresh_entire_bucket_name_cache c pairs) pairs := by
    unfold refresh_entire_bucket_name_cache
    rw [show staleNames ((staleNames c pairs).foldl remove_bucket_name
        (setAllBucketIds c pairs)) pairs = [] from staleNames_refresh c pairs]
    rfl
  refine ⟨?_, ?_, ?_⟩
  · rw [hsecond, setAllBucketIds_bucketNames]
  · intro n
    rw [hsecond, setAllBucketIds_bucketIds]
    rcases hl : lastIdOf pairs n with _ | i
    · rfl
    · rw [show (refresh_entire_bucket_name_cache c pairs).bucketIds n =
          ((staleNames c pairs).foldl remove_bucket_name
            (setAllBucketIds c pairs)).bucketIds n from rfl]
      rw [foldl_remove_bucketIds]
      have hnew : n ∈ pairs.map Prod.fst := lastIdOf_isSome_mem pairs n i hl
      have hns : n ∉ staleNames c pairs := fun hmem =>
        (mem_staleNames c pairs n hmem).2 hnew
      rw [if_neg hns, setAllBucketIds_bucketIds]
      simp [hl]
  · rw [hsecond, setAllBucketIds_accountInfo]

/-! ## C2, C3: the lazy file handle -/

lemma getLastD_irrel {α : Type} (ps : List α) (h : ps ≠ []) (d1 d2 : α) :
    ps.getLastD d1 = ps.getLastD d2 := by
  cases ps with
  | nil => exact absurd rfl h
  | cons p ps =>
    rw [List.getLastD_eq_getLast?, List.getLastD_eq_getLast?,
      List.getLast?_eq_getLast (p :: ps) (by simp)]
    rfl

/-- A nonempty sequence of writes on a writable handle succeeds, leaving
the buffer holding exactly the last payload (at position 0) and the
handle dirty. -/
lemma runWrites_spec (ps : List (List Nat)) :
    ∀ f : B2File, 'w' ∈ f.mode.data → ps ≠ [] →
      B2File.runWrites f ps =
        Except.ok { f with contents := some ⟨ps.getLastD [], 0⟩,
                           hasUnwrittenData := true } := by
  induction ps with
  | nil => intro f _ h; exact absurd rfl h
  | cons p ps ih =>
    intro f hw _
    have hwrite : f.write p =
        Except.ok { f with contents := some ⟨p, 0⟩, hasUnwrittenData := true } := by
      simp [B2File.write, hw]
    cases ps with
    | nil =>
      simp [B2File.runWrites, hwrite]
    | cons q qs =>
      have hne : q :: qs ≠ ([] : List (List Nat)) := by simp
      have hstep : B2File.runWrites f (p :: q :: qs) =
          B2File.runWrites (B2File.mk f.name f.mode true (some ⟨p, 0⟩))
            (q :: qs) := by
        simp [B2File.runWrites, hwrite]
      rw [hstep, ih _ (by simpa using hw) hne]
      have hcons : (p :: q :: qs).getLastD ([] : List Nat) =
          (q :: qs).getLastD p := List.getLastD_cons [] p (q :: qs)
      have hlast : (q :: qs).getLastD ([] : List Nat) =
          (p :: q :: qs).getLastD [] :=
        (getLastD_irrel (q :: qs) hne ([] : List Nat) p).trans hcons.symm
      simp [hlast]

/-- C2: a handle opened in a write-enabled mode, written one or more
times and then closed — with no read in between — performs zero download
calls and exactly one upload whose payload is exactly the last write's
payload. -/
theorem c2_write_close_uploads_last_payload (remote : List Nat)
    (name mode : String) (ps : List (List Nat))
    (hw : 'w' ∈ mode.data) (hne : ps ≠ []) :
    ∃ f1, B2File.runWrites (B2File.openFile name mode) ps = Except.ok f1 ∧
      (B2File.close remote f1 NetLog.empty).2 =
        { downloads := 0, uploads := [ps.getLastD []] } := by
  refine ⟨_, runWrites_spec ps (B2File.openFile name mode) hw hne, ?_⟩
  simp [B2File.close, B2File.fileGet, ByteBuf.readAll, NetLog.empty]

/-- C2 witness: two writes then close on a concrete handle uploads the
second payload only, with no download. -/
theorem c2_write_close_uploads_last_payload_witness :
    ∃ f1, B2File.runWrites (B2File.openFile "file.txt" "w") [[1], [2, 3]] =
        Except.ok f1 ∧
      (B2File.close [9, 9] f1 NetLog.empty).2 =
        { downloads := 0, uploads := [[2, 3]] } := by
  have h := c2_write_close_uploads_last_payload [9, 9] "file.txt" "w"
    [[1], [2, 3]] (by decide) (by decide)
  simpa using h

/-- C3 counterexample: a handle that was opened (read mode, clean, buffer
never materialized) performs one download when closed — `close` runs
`self.file.close()`, and the `file` property getter downloads the object
to produce the buffer it is about to close. The claim's "zero network
operations" fails. -/
theorem c3_counterexample :
    (B2File.close [5, 6] (B2File.openFile "f" "r") NetLog.empty).2 =
      { downloads := 1, uploads := [] } := by
  decide

/-- C3 (amended): closing a clean handle whose buffer is already
materialized performs zero network operations; closing a clean handle
whose buffer was never materialized performs exactly one download and no
upload. -/
theorem c3_clean_close_network (remote : List Nat) (f : B2File)
    (log : NetLog) (hd : f.hasUnwrittenData = false) :
    (∀ b, f.contents = some b → (B2File.close remote f log).2 = log) ∧
    (f.contents = none → (B2File.close remote f log).2 =
      { log with downloads := log.downloads + 1 }) := by
  constructor
  · intro b hb
    simp [B2File.close, B2File.fileGet, hd, hb]
  · intro hb
    simp [B2File.close, B2File.fileGet, hd, hb]

/-- C3 witness: the amended close behaviour evaluated on a materialized
and on an untouched clean handle. -/
theorem c3_clean_close_network_witness :
    (B2File.close [5, 6]
        { name := "f", mode := "r", hasUnwrittenData := false,
          contents := some ⟨[7], 0⟩ } NetLog.empty).2 = NetLog.empty ∧
    (B2File.close [5, 6] (B2File.openFile "f" "r") NetLog.empty).2 =
      { NetLog.empty with downloads := NetLog.empty.downloads + 1 } := by
  exact ⟨(c3_clean_close_network [5, 6] _ NetLog.empty rfl).1 ⟨[7], 0⟩ rfl,
    (c3_clean_close_network [5, 6] (B2File.openFile "f" "r")
      NetLog.empty rfl).2 rfl⟩

/-! ## C5: the public-tier visibility probe -/

/-- C5: evaluation at the failing input. With the visibility probe
answering indeterminate, indeterminate, then "allPublic",
`url("some/file.jpeg")` on the public facade performs only 2 visibility
reads and 1 bucket refresh, leaves the third probe answer unconsumed,
caches no bucket type, and returns the gated internal path — not the
direct download URL the claim (and the repository's own test
`test_generates_public_file_with_retry_if_bucket_type_missing`)
expects. -/
theorem c5_probe_gives_up_after_one_retry :
    publicGetFileUrl ⟨none⟩ [none, none, some "allPublic"] ⟨0, 0⟩
        "django" "some/file.jpeg" =
      (internalPublicPath "some/file.jpeg", ⟨none⟩,
        [some "allPublic"], ⟨2, 1⟩) := by
  rfl

/-! ## C6: scoped facades reject raw bucket names and credentials -/

/-- C6: constructing any of the three access-scoped facades with explicit
options carrying a raw bucket name or raw credentials (application key
id, application key, or realm) fails during configuration resolution
with the corresponding hard configuration error. -/
theorem c6_scoped_facade_rejects_bucket_and_credentials (tier : Tier)
    (kwargOpts : Opts) (settings : Option Opts)
    (h : kwargOpts.hasKey "bucket" = true ∨
      kwargOpts.hasKey "application_key_id" = true ∨
      kwargOpts.hasKey "application_key" = true ∨
      kwargOpts.hasKey "realm" = true) :
    scopedStorageResolveConfig tier kwargOpts settings =
        Except.error "May not specify bucket in proxied storage class" ∨
    scopedStorageResolveConfig tier kwargOpts settings =
        Except.error "May not specify auth credentials in proxied storage class" := by
  by_cases hb : kwargOpts.hasKey "bucket" = true
  · left
    simp [scopedStorageResolveConfig, scopedGetDjangoSettingsOptions,
      validate_kwarg_opts, hb]
    rfl
  · right
    have hc : (kwargOpts.hasKey "application_key_id"
        || kwargOpts.hasKey "application_key"
        || kwargOpts.hasKey "realm") = true := by
      rcases h with h | h | h | h
      · exact absurd h hb
      · simp [h]
      · simp [h]
      · simp [h]
    simp [scopedStorageResolveConfig, scopedGetDjangoSettingsOptions,
      validate_kwarg_opts, hb, hc]
    rfl

/-- C6 witness: each facade rejects a concrete raw bucket name and a
concrete raw credential. -/
theorem c6_scoped_facade_rejects_bucket_and_credentials_witness :
    (scopedStorageResolveConfig Tier.publicTier [("bucket", "b")] none =
        Except.error "May not specify bucket in proxied storage class" ∨
      scopedStorageResolveConfig Tier.publicTier [("bucket", "b")] none =
        Except.error "May not specify auth credentials in proxied storage class") ∧
    (scopedStorageResolveConfig Tier.staffTier [("realm", "dev")] none =
        Except.error "May not specify bucket in proxied storage class" ∨
      scopedStorageResolveConfig Tier.staffTier [("realm", "dev")] none =
        Except.error "May not specify auth credentials in proxied storage class") := by
  exact ⟨c6_scoped_facade_rejects_bucket_and_credentials Tier.publicTier
      [("bucket", "b")] none (Or.inl (by decide)),
    c6_scoped_facade_rejects_bucket_and_credentials Tier.staffTier
      [("realm", "dev")] none (Or.inr (Or.inr (Or.inr (by decide))))⟩

/-! ## C7: file-info caching -/

/-- A remote store holding no files at all. -/
def remoteNone : String → Option FileInfoD := fun _ => none

/-- C7 counterexample: with caching enabled and the remote reporting
not-found, two consecutive `exists` lookups of the same name each perform
a remote fetch — the not-found outcome is never written to the cache
(the `FileOrBucketNotFound` raised inside `get_or_set`'s default callable
propagates before anything is stored), so the second lookup does not
perform zero further remote fetches as claimed. -/
theorem c7_counterexample :
    (existsCached remoteNone FileInfoCache.empty "x").1 = false ∧
    (existsCached remoteNone FileInfoCache.empty "x").2.fetches = 1 ∧
    (existsCached remoteNone
        (existsCached remoteNone FileInfoCache.empty "x").2 "x").1 = false ∧
    (existsCached remoteNone
        (existsCached remoteNone FileInfoCache.empty "x").2 "x").2.fetches = 2 := by
  exact ⟨rfl, rfl, rfl, rfl⟩

/-- C7 (amended): a cache miss triggers exactly one remote fetch; a
found outcome is stored, so a repeated lookup within the TTL window
returns it with zero further fetches; a not-found outcome is not stored,
so each repeated lookup of a missing name performs another remote
fetch. -/
theorem c7_fileinfo_cache_behaviour (remote : String → Option FileInfoD)
    (st : FileInfoCache) (name : String) (hmiss : st.entries name = none) :
    ((fileInfoCached remote st name).2.fetches = st.fetches + 1) ∧
    (∀ info, remote name = some info →
      (fileInfoCached remote st name).1 = some info ∧
      fileInfoCached remote (fileInfoCached remote st name).2 name =
        (some info, (fileInfoCached remote st name).2)) ∧
    (remote name = none →
      (fileInfoCached remote st name).1 = none ∧
      (fileInfoCached remote st name).2.entries name = none ∧
      (fileInfoCached remote
        (fileInfoCached remote st name).2 name).2.fetches = st.fetches + 2) := by
  refine ⟨?_, ?_, ?_⟩
  · rcases hr : remote name with _ | info <;>
      simp [fileInfoCached, hmiss, hr]
  · intro info hr
    constructor
    · simp [fileInfoCached, hmiss, hr]
    · have hcached : (fileInfoCached remote st name).2.entries name = some info := by
        simp [fileInfoCached, hmiss, hr]
      simp only [fileInfoCached, hcached]
      simp [fileInfoCached, hmiss, hr]
  · intro hr
    refine ⟨?_, ?_, ?_⟩
    · simp [fileInfoCached, hmiss, hr]
    · simp [fileInfoCached, hmiss, hr]
    · have hstill : (fileInfoCached remote st name).2.entries name = none := by
        simp [fileInfoCached, hmiss, hr]
      have hfetch : (fileInfoCached remote st name).2.fetches = st.fetches + 1 := by
        simp [fileInfoCached, hmiss, hr]
      set s1 := (fileInfoCached remote st name).2 with hs1
      simp [fileInfoCached, hstill, hfetch, hr]

/-- A remote store holding exactly one file. -/
def remoteOne : String → Option FileInfoD :=
  fun n => if n = "present.txt" then some ⟨"id1", 3⟩ else none

/-- C7 witness: the amended caching behaviour evaluated on a present and
on a missing file. -/
theorem c7_fileinfo_cache_behaviour_witness :
    ((fileInfoCached remoteOne FileInfoCache.empty "present.txt").1 =
        some ⟨"id1", 3⟩ ∧
      fileInfoCached remoteOne
          (fileInfoCached remoteOne FileInfoCache.empty "present.txt").2
          "present.txt" =
        (some ⟨"id1", 3⟩,
          (fileInfoCached remoteOne FileInfoCache.empty "present.txt").2)) ∧
    ((fileInfoCached remoteOne FileInfoCache.empty "gone.txt").1 = none ∧
      (fileInfoCached remoteOne FileInfoCache.empty "gone.txt").2.entries
        "gone.txt" = none ∧
      (fileInfoCached remoteOne
        (fileInfoCached remoteOne FileInfoCache.empty "gone.txt").2
        "gone.txt").2.fetches = FileInfoCache.empty.fetches + 2) := by
  exact ⟨(c7_fileinfo_cache_behaviour remoteOne FileInfoCache.empty
      "present.txt" rfl).2.1 ⟨"id1", 3⟩ rfl,
    (c7_fileinfo_cache_behaviour remoteOne FileInfoCache.empty
      "gone.txt" rfl).2.2 rfl⟩

end DjangoB2
